import Mathlib

/-!
Shallow embedding of the carve backend (src/backend/flaskr/app.py and
src/backend/flaskr/carve_api.py).

Modelling conventions:
* Byte strings (`HexBytes` values) become `List Nat`, one entry per byte;
  only lengths and equality of byte strings matter to the properties below,
  and the hex rendering of a byte string is not modelled.
* The database tables become Lean lists carried in an explicit `DBState`:
  `orders` is the `orders` table (`CarvingOrder`), `mirror` is the
  `carvings` table (`ExistingCarving`), `nextIndex` is `CarveAPI.next_index`
  (the in-memory allocation cursor dictionary), and `carves` is the trace of
  `Tree.carve` transactions submitted to the ledger.
* External effects (keccak hashing, the `Tree` contract, the database insert
  outcome) are parameters collected in `LedgerEnv`; fallible Python code
  becomes `Except`, and the unbounded allocation `while` loop is given
  explicit fuel (`none` = the loop has not returned within `fuel` probes).
-/

namespace Carve

/-- Byte strings (`HexBytes`) are lists of naturals, one per byte. -/
abbrev Bytes := List Nat

/-- The configuration values the embedded code reads
(`ParameterHandler.carving_from_to_limit`, `carving_length_limit`). -/
structure Params where
  carving_from_to_limit : Nat
  carving_length_limit : Nat
deriving Repr, DecidableEq

/-- The properties normalizer used at `CarvingOrder.format_properties`,
`ExistingCarving.format_properties` (app.py lines 61-63, 90-92) and
carve_api.py line 82: in Python,
`HexBytes(HexBytes("00" * 31) + HexBytes(value))[-31:]` — prepend 31 zero
bytes, then keep the last 31 bytes. -/
def format_properties (value : Bytes) : Bytes :=
  let padded := List.replicate 31 0 ++ value
  padded.drop (padded.length - 31)

/-- A row of the `carvings` table (`ExistingCarving` in app.py): nullable
`carving_to`/`carving_from`/`carving_message` become `Option`. -/
structure MirrorRow where
  carving_id : Bytes
  carving_txn : Bytes
  carving_to : Option String
  carving_from : Option String
  carving_message : Option String
  carving_properties : Bytes
deriving Repr, DecidableEq

/-- A row of the `orders` table (`CarvingOrder` in app.py); the fields not
read by any claim (`received_at`, `blockchain_executed`, `email_sent`) are
omitted, and the nullable-with-empty-default ledger fields
(`carving_id`, `carving_txn`, `carving_link`) become `Option` (`none` =
never assigned by the webhook handler). -/
structure Order where
  object_id : String
  payment_id : String
  carving_to : String
  carving_from : String
  carving_message : String
  carving_properties : Bytes
  provided_email : String
  receipt_email : String
  created_at : Nat
  carving_id : Option Bytes
  carving_txn : Option Bytes
  carving_link : Option String
deriving Repr, DecidableEq

/-- One call to `Tree.carve` submitted to the ledger
(carve_api.py lines 83-87), with the transaction hash it returned. -/
structure CarveCall where
  id : Bytes
  sent_to : String
  sent_from : String
  msg : String
  props : Bytes
  txn : Bytes
deriving Repr, DecidableEq

/-- The mutable state the claims are about: the two database tables, the
in-memory allocation cursor dictionary, and the trace of ledger writes. -/
structure DBState where
  orders : List Order
  mirror : List MirrorRow
  nextIndex : List (Bytes × Nat)
  carves : List CarveCall
deriving Repr, DecidableEq

/-- The external world: the keccak-based id derivations
(`generate_user_id`, `generate_carving_id`), the outcome of
`Tree.read` (`true` = the call returns, `false` = `ContractCustomError`),
the outcome of `Tree.carve` (transaction hash or a raised error), and the
configuration. -/
structure LedgerEnv where
  genUserId : String → Bytes
  genCarvingId : Bytes → Nat → Bytes
  read_exists : Bytes → Bool
  carve : Bytes → String → String → String → Bytes → Except String Bytes
  params : Params

/-- Modelled from the spec: `email_handler.db_to_sheets` is called by the
code under src/ but its definition is not in the source tree (only its
callers are). Spec section 6 treats the spreadsheet export as a best-effort
fire-and-forget notification sink whose failure must not roll back the Order
persistence or the ledger write, so it is modelled as a state-preserving
no-op. -/
def db_to_sheets (s : DBState) : DBState := s

/-- Whether the `carvings` table has any row (tombstone or not) with the
given id: `ExistingCarving.query.filter_by(carving_id=...).first()`
(carve_api.py line 45). -/
def mirrorHas (m : List MirrorRow) (cid : Bytes) : Bool :=
  m.any (fun r => r.carving_id == cid)

/-- `CarveAPI.id_is_used` (carve_api.py lines 43-51): any mirror row for the
id counts as used; only when there is no row at all is the contract
consulted (`read` returning normally means used, `ContractCustomError`
means free). -/
def id_is_used (env : LedgerEnv) (m : List MirrorRow) (cid : Bytes) : Bool :=
  if mirrorHas m cid then true
  else env.read_exists cid

/-- Lookup in the `next_index` dictionary (keyed by user id). -/
def lookupIdx : List (Bytes × Nat) → Bytes → Option Nat
  | [], _ => none
  | (k, v) :: rest, key => if k == key then some v else lookupIdx rest key

/-- Store into the `next_index` dictionary (keyed by user id). -/
def setIdx : List (Bytes × Nat) → Bytes → Nat → List (Bytes × Nat)
  | [], key, v => [(key, v)]
  | (k, w) :: rest, key, v =>
      if k == key then (k, v) :: rest else (k, w) :: setIdx rest key v

/-- The `while id_is_used(...)` probe loop of `get_next_id_for_email`
(carve_api.py lines 56-57), with explicit fuel: returns the first index at
or after `idx` whose candidate id is unoccupied, or `none` when the loop
has not returned within `fuel` probes. -/
def findFreeIndex (env : LedgerEnv) (m : List MirrorRow) (uid : Bytes) :
    Nat → Nat → Option Nat
  | 0, _ => none
  | fuel + 1, idx =>
      if id_is_used env m (env.genCarvingId uid idx) then
        findFreeIndex env m uid fuel (idx + 1)
      else
        some idx

/-- `CarveAPI.get_next_id_for_email` (carve_api.py lines 53-58):
`setdefault(user_id, 0)`, probe upward from the cursor, leave the cursor at
the found index, return the candidate id at that index. -/
def get_next_id_for_email (env : LedgerEnv) (s : DBState) (email : String)
    (fuel : Nat) : Option (Bytes × DBState) :=
  let uid := env.genUserId email
  let start := (lookupIdx s.nextIndex uid).getD 0
  match findFreeIndex env s.mirror uid fuel start with
  | some i =>
      some (env.genCarvingId uid i, { s with nextIndex := setIdx s.nextIndex uid i })
  | none => none

/-- Primary-key / unique-column check of the `carvings` table
(`carving_id` is the primary key, `carving_txn` is unique): a bulk insert
raises an integrity error instead of storing duplicate keys. -/
def insertRows (m : List MirrorRow) (new : List MirrorRow) :
    Except String (List MirrorRow) :=
  if ((m ++ new).map (fun r => r.carving_id)).Nodup ∧
     ((m ++ new).map (fun r => r.carving_txn)).Nodup then
    .ok (m ++ new)
  else .error "IntegrityError"

/-- `CarveAPI.make_carving` (carve_api.py lines 72-98): validate, truncate,
normalize properties, submit `Tree.carve`, insert the mirror row, commit,
export. A raised Python exception becomes `.error (message, state at the
raise)`; the transaction hash of a successful carve is appended to the
`carves` trace even when the subsequent database insert fails, because the
ledger write has already happened at that point. -/
def make_carving (env : LedgerEnv) (s : DBState) (carving_id : Bytes)
    (carving_to carving_from carving_message : String)
    (carving_properties : Bytes) :
    Except (String × DBState) (Bytes × DBState) :=
  if carving_message = "" then
    .error ("Carving message cannot be empty.", s)
  else if carving_id.length ≠ 32 then
    .error ("Carving ID must be 32 bytes long.", s)
  else
    let cto := carving_to.take env.params.carving_from_to_limit
    let cfrom := carving_from.take env.params.carving_from_to_limit
    let cmsg := carving_message.take env.params.carving_length_limit
    let props := format_properties carving_properties
    match env.carve carving_id cto cfrom cmsg props with
    | .error e => .error (e, s)
    | .ok txn =>
        let s1 := { s with carves := s.carves ++ [⟨carving_id, cto, cfrom, cmsg, props, txn⟩] }
        match insertRows s1.mirror
            [{ carving_id := carving_id, carving_txn := txn,
               carving_to := some cto, carving_from := some cfrom,
               carving_message := some cmsg, carving_properties := props }] with
        | .ok m => .ok (txn, db_to_sheets { s1 with mirror := m })
        | .error e => .error (e, s1)

/-- A `CarvingStored` event from the ledger's event log
(carve_api.py line 102; fields at lines 111-116). -/
structure StoreEvent where
  carvingId : Bytes
  transactionHash : Bytes
  arg_to : String
  arg_from : String
  message : String
  properties : Bytes
deriving Repr, DecidableEq

/-- A `CarvingDeleted` event from the ledger's event log
(carve_api.py line 104; fields at lines 119-120). -/
structure DeleteEvent where
  carvingId : Bytes
  transactionHash : Bytes
deriving Repr, DecidableEq

/-- The mirror row inserted for a live (stored, not deleted) event
(carve_api.py lines 110-116): full content, properties stored verbatim
from the event. -/
def liveRow (e : StoreEvent) : MirrorRow :=
  { carving_id := e.carvingId, carving_txn := e.transactionHash,
    carving_to := some e.arg_to, carving_from := some e.arg_from,
    carving_message := some e.message, carving_properties := e.properties }

/-- The tombstone row inserted for a delete event
(carve_api.py lines 118-124): content nulled, properties all-zero. -/
def tombstoneRow (e : DeleteEvent) : MirrorRow :=
  { carving_id := e.carvingId, carving_txn := e.transactionHash,
    carving_to := none, carving_from := none,
    carving_message := none, carving_properties := List.replicate 31 0 }

/-- `CarveAPI.update_existing_carvings` (carve_api.py lines 100-129).
`fetch = none` models the event-log fetch raising before any database work;
`dbFail = true` models an I/O error inside the database transaction before
the commit at line 126. Every exception is caught by the handler at line
128, and since the single commit never ran, the transaction rolls back and
the previous mirror is kept. -/
def update_existing_carvings (s : DBState)
    (fetch : Option (List StoreEvent × List DeleteEvent)) (dbFail : Bool) :
    DBState :=
  match fetch with
  | none => s
  | some (store_events, delete_events) =>
      let deleted_ids := delete_events.map (fun e => e.carvingId)
      let existing_carvings :=
        store_events.filter (fun e => !(deleted_ids.contains e.carvingId))
      let rows := existing_carvings.map liveRow ++ delete_events.map tombstoneRow
      if dbFail then s
      else
        match insertRows [] rows with
        | .ok m => db_to_sheets { s with mirror := m }
        | .error _ => s

/-- The `payment_intent.succeeded` event fields the webhook handler reads
(app.py lines 234-252): `object_id = event["id"]`,
`payment_id = event["data"]["object"]["id"]`, the metadata fields, the
receipt email and the creation timestamp. -/
structure PaymentEvent where
  object_id : String
  payment_id : String
  carving_to : String
  carving_from : String
  carving_message : String
  carving_properties : Bytes
  provided_email : String
  receipt_email : String
  created : Nat
deriving Repr, DecidableEq

/-- Which branch of the webhook handler ran. `alreadyProcessed` is the
dedup short-circuit (app.py lines 238-241), `created` the full pipeline,
`incomplete` the missing-email-or-message path (line 267), and
`errorOut msg` an exception escaping the handler uncaught. -/
inductive WebhookOutcome where
  | alreadyProcessed
  | created
  | incomplete
  | errorOut (msg : String)
deriving Repr, DecidableEq

/-- The Order row the webhook handler constructs (app.py lines 244-252);
its `carving_properties` pass through the `CarvingOrder.format_properties`
validator, and the ledger fields start unassigned. -/
def orderOfEvent (ev : PaymentEvent) : Order :=
  { object_id := ev.object_id
    payment_id := ev.payment_id
    carving_to := ev.carving_to
    carving_from := ev.carving_from
    carving_message := ev.carving_message
    carving_properties := format_properties ev.carving_properties
    provided_email := ev.provided_email
    receipt_email := ev.receipt_email
    created_at := ev.created
    carving_id := none
    carving_txn := none
    carving_link := none }

/-- The `payment_intent.succeeded` branch of `stripe_webhook`
(app.py lines 233-270): dedup on `object_id` then `payment_id`; build the
order; if email and message are both non-empty, allocate an id and carve,
populating the ledger fields on success — an exception from `make_carving`
is not caught and escapes with no order persisted; otherwise persist the
order without ledger fields. The etherscan link text abstracts from the
hex rendering of the transaction hash. -/
def stripe_webhook_succeeded (env : LedgerEnv) (s : DBState)
    (ev : PaymentEvent) (fuel : Nat) : WebhookOutcome × DBState :=
  if s.orders.any (fun o => o.object_id == ev.object_id) then
    (.alreadyProcessed, s)
  else if s.orders.any (fun o => o.payment_id == ev.payment_id) then
    (.alreadyProcessed, s)
  else
    let order : Order := orderOfEvent ev
    if order.provided_email ≠ "" ∧ order.carving_message ≠ "" then
      match get_next_id_for_email env s order.provided_email fuel with
      | none => (.errorOut "allocation loop did not return", s)
      | some (cid, s1) =>
          match make_carving env s1 cid order.carving_to order.carving_from
              order.carving_message order.carving_properties with
          | .error (e, s2) => (.errorOut e, s2)
          | .ok (txn, s2) =>
              let order2 := { order with
                carving_id := some cid,
                carving_txn := some txn,
                carving_link := some "sepolia-optimism.etherscan.io/tx/...#eventlog" }
              (.created, db_to_sheets { s2 with orders := s2.orders ++ [order2] })
    else
      (.incomplete, db_to_sheets { s with orders := s.orders ++ [order] })

/-! Concrete fixtures used by witnesses and counterexamples. -/

/-- A benign concrete environment: a single user hash, 32-byte candidate
ids indexed by their probe index, an empty ledger, and a carve call that
returns transaction hash `[9]`. -/
def envW : LedgerEnv :=
  { genUserId := fun _ => [7]
    genCarvingId := fun _ i => i :: List.replicate 31 0
    read_exists := fun _ => false
    carve := fun _ _ _ _ _ => .ok [9]
    params := { carving_from_to_limit := 10, carving_length_limit := 10 } }

/-- Like `envW` but the ledger write raises. -/
def envErr : LedgerEnv :=
  { envW with carve := fun _ _ _ _ _ => .error "network failure" }

/-- Like `envW` but every id reads as existing on the ledger: every
candidate is occupied. -/
def envAll : LedgerEnv :=
  { envW with read_exists := fun _ => true }

/-- Empty state: no orders, empty mirror, no cursors, no ledger writes. -/
def stEmpty : DBState := { orders := [], mirror := [], nextIndex := [], carves := [] }

/-- A stored order used by the dedup fixtures. -/
def orderW : Order :=
  { object_id := "obj", payment_id := "pay", carving_to := "", carving_from := "",
    carving_message := "m", carving_properties := List.replicate 31 0,
    provided_email := "e", receipt_email := "", created_at := 0,
    carving_id := none, carving_txn := none, carving_link := none }

/-- State already holding `orderW`. -/
def stW : DBState := { orders := [orderW], mirror := [], nextIndex := [], carves := [] }

/-- A redelivered event whose `object_id` matches `orderW`. -/
def evW : PaymentEvent :=
  { object_id := "obj", payment_id := "p2", carving_to := "t", carving_from := "f",
    carving_message := "hi", carving_properties := [5], provided_email := "a",
    receipt_email := "", created := 0 }

/-- A fresh event with email and message present. -/
def evFresh : PaymentEvent :=
  { object_id := "o1", payment_id := "p1", carving_to := "t", carving_from := "f",
    carving_message := "hi", carving_properties := [5], provided_email := "a",
    receipt_email := "", created := 0 }

/-- A concrete `CarvingStored` event. -/
def seW : StoreEvent :=
  { carvingId := [1], transactionHash := [10], arg_to := "t", arg_from := "f",
    message := "m", properties := [5] }

/-- A concrete `CarvingDeleted` event for the same id. -/
def deW : DeleteEvent := { carvingId := [1], transactionHash := [11] }

/-- A 32-byte carving id accepted by the `make_carving` length check. -/
def cid32 : Bytes := List.replicate 32 1

/-- The state after a successful allocation from `stEmpty` under `envW` or
`envErr`: the cursor for user hash `[7]` is persisted at the found index 0. -/
def stAfterAlloc : DBState :=
  { orders := [], mirror := [], nextIndex := [([7], 0)], carves := [] }

/-- A fresh event with email present but an empty message: the webhook
takes the incomplete path and persists the order without ledger fields. -/
def evNoMsg : PaymentEvent :=
  { object_id := "o2", payment_id := "p2", carving_to := "t", carving_from := "f",
    carving_message := "", carving_properties := [5], provided_email := "a",
    receipt_email := "", created := 0 }

/-- The state after the webhook handles `evNoMsg` from `stEmpty`. -/
def stIncomplete : DBState :=
  { orders := [orderOfEvent evNoMsg], mirror := [], nextIndex := [], carves := [] }

/-- A concrete tombstone mirror row. -/
def tombW : MirrorRow :=
  { carving_id := [1], carving_txn := [2], carving_to := none,
    carving_from := none, carving_message := none,
    carving_properties := List.replicate 31 0 }

/-! Helper lemmas. -/

theorem format_properties_eq (v : Bytes) :
    format_properties v =
      List.replicate (31 - v.length) 0 ++ v.drop (v.length - 31) := by
  unfold format_properties
  simp only [List.length_append, List.length_replicate]
  have h : 31 + v.length - 31 = v.length := by omega
  rw [h, List.drop_append_eq_append_drop, List.drop_replicate, List.length_replicate]

theorem format_properties_length (v : Bytes) :
    (format_properties v).length = 31 := by
  rw [format_properties_eq]
  simp only [List.length_append, List.length_replicate, List.length_drop]
  omega

theorem findFreeIndex_some (env : LedgerEnv) (m : List MirrorRow) (uid : Bytes) :
    ∀ fuel idx i, findFreeIndex env m uid fuel idx = some i →
      idx ≤ i ∧ id_is_used env m (env.genCarvingId uid i) = false ∧
      ∀ j, idx ≤ j → j < i → id_is_used env m (env.genCarvingId uid j) = true := by
  intro fuel
  induction fuel with
  | zero => intro idx i h; simp [findFreeIndex] at h
  | succ n ih =>
      intro idx i h
      rw [findFreeIndex] at h
      by_cases hu : id_is_used env m (env.genCarvingId uid idx) = true
      · rw [if_pos hu] at h
        obtain ⟨h1, h2, h3⟩ := ih (idx + 1) i h
        refine ⟨by omega, h2, ?_⟩
        intro j hj1 hj2
        rcases Nat.eq_or_lt_of_le hj1 with he | hl
        · rw [← he]; exact hu
        · exact h3 j hl hj2
      · rw [if_neg hu] at h
        injection h with h
        subst h
        exact ⟨Nat.le_refl _, Bool.eq_false_iff.mpr hu, fun j hj1 hj2 => by omega⟩

theorem findFreeIndex_reaches (env : LedgerEnv) (m : List MirrorRow) (uid : Bytes) :
    ∀ k fuel idx,
      id_is_used env m (env.genCarvingId uid (idx + k)) = false → k < fuel →
      (findFreeIndex env m uid fuel idx).isSome := by
  intro k
  induction k with
  | zero =>
      intro fuel idx h hf
      match fuel, hf with
      | n + 1, _ =>
        rw [findFreeIndex, if_neg (by simp at h; simp [h])]
        rfl
  | succ k ih =>
      intro fuel idx h hf
      match fuel, hf with
      | n + 1, _ =>
        rw [findFreeIndex]
        by_cases hu : id_is_used env m (env.genCarvingId uid idx) = true
        · rw [if_pos hu]
          exact ih n (idx + 1) (by rw [Nat.add_right_comm]; exact h) (by omega)
        · rw [if_neg hu]; rfl

theorem findFreeIndex_none_of_all_used (env : LedgerEnv) (m : List MirrorRow)
    (uid : Bytes)
    (h : ∀ j, id_is_used env m (env.genCarvingId uid j) = true) :
    ∀ fuel idx, findFreeIndex env m uid fuel idx = none := by
  intro fuel
  induction fuel with
  | zero => intro idx; rfl
  | succ n ih => intro idx; rw [findFreeIndex, if_pos (h idx)]; exact ih (idx + 1)

theorem lookupIdx_setIdx (l : List (Bytes × Nat)) (k : Bytes) (v : Nat) :
    lookupIdx (setIdx l k v) k = some v := by
  induction l with
  | nil => simp [setIdx, lookupIdx]
  | cons p rest ih =>
      obtain ⟨a, b⟩ := p
      by_cases h : (a == k) = true
      · rw [setIdx, if_pos h, lookupIdx, if_pos h]
      · rw [setIdx, if_neg h, lookupIdx, if_neg h]
        exact ih

theorem get_next_id_preserves (env : LedgerEnv) (s : DBState) (email : String)
    (fuel : Nat) (cid : Bytes) (s' : DBState)
    (h : get_next_id_for_email env s email fuel = some (cid, s')) :
    s'.orders = s.orders ∧ s'.mirror = s.mirror ∧ s'.carves = s.carves := by
  unfold get_next_id_for_email at h
  dsimp only at h
  split at h
  · simp only [Option.some.injEq, Prod.mk.injEq] at h
    rw [← h.2]
    exact ⟨rfl, rfl, rfl⟩
  · cases h

theorem get_next_id_spec (env : LedgerEnv) (s : DBState) (email : String)
    (fuel : Nat) (cid : Bytes) (s' : DBState)
    (h : get_next_id_for_email env s email fuel = some (cid, s')) :
    ∃ i, cid = env.genCarvingId (env.genUserId email) i ∧
      lookupIdx s'.nextIndex (env.genUserId email) = some i ∧
      id_is_used env s.mirror (env.genCarvingId (env.genUserId email) i) = false ∧
      (lookupIdx s.nextIndex (env.genUserId email)).getD 0 ≤ i ∧
      ∀ j, (lookupIdx s.nextIndex (env.genUserId email)).getD 0 ≤ j → j < i →
        id_is_used env s.mirror (env.genCarvingId (env.genUserId email) j) = true := by
  unfold get_next_id_for_email at h
  dsimp only at h
  split at h
  case _ i hi =>
    obtain ⟨h1, h2, h3⟩ := findFreeIndex_some env s.mirror (env.genUserId email) fuel _ i hi
    simp only [Option.some.injEq, Prod.mk.injEq] at h
    refine ⟨i, h.1.symm, ?_, h2, h1, h3⟩
    rw [← h.2]
    exact lookupIdx_setIdx s.nextIndex (env.genUserId email) i
  · cases h

theorem make_carving_ok_dest (env : LedgerEnv) (s : DBState) (cid : Bytes)
    (cto cfrom cmsg : String) (props : Bytes) (txn : Bytes) (s' : DBState)
    (h : make_carving env s cid cto cfrom cmsg props = .ok (txn, s')) :
    s'.orders = s.orders ∧ s'.nextIndex = s.nextIndex ∧
    s'.carves = s.carves ++
      [{ id := cid, sent_to := cto.take env.params.carving_from_to_limit,
         sent_from := cfrom.take env.params.carving_from_to_limit,
         msg := cmsg.take env.params.carving_length_limit,
         props := format_properties props, txn := txn }] ∧
    s'.mirror = s.mirror ++
      [{ carving_id := cid, carving_txn := txn,
         carving_to := some (cto.take env.params.carving_from_to_limit),
         carving_from := some (cfrom.take env.params.carving_from_to_limit),
         carving_message := some (cmsg.take env.params.carving_length_limit),
         carving_properties := format_properties props }] := by
  unfold make_carving at h
  dsimp only at h
  split at h
  · cases h
  split at h
  · cases h
  split at h
  · cases h
  case _ txn0 hcarve =>
    split at h
    case _ m hins =>
      simp only [Except.ok.injEq, Prod.mk.injEq] at h
      obtain ⟨ht, hs⟩ := h
      subst ht
      rw [← hs]
      unfold insertRows at hins
      split at hins
      · simp only [Except.ok.injEq] at hins
        rw [← hins]
        exact ⟨rfl, rfl, rfl, rfl⟩
      · cases hins
    case _ e hins => cases h

theorem make_carving_error_dest (env : LedgerEnv) (s : DBState) (cid : Bytes)
    (cto cfrom cmsg : String) (props : Bytes) (e : String) (s' : DBState)
    (h : make_carving env s cid cto cfrom cmsg props = .error (e, s')) :
    s'.orders = s.orders ∧ s'.mirror = s.mirror ∧ s'.nextIndex = s.nextIndex := by
  unfold make_carving at h
  dsimp only at h
  split at h
  · simp only [Except.error.injEq, Prod.mk.injEq] at h
    rw [← h.2]
    exact ⟨rfl, rfl, rfl⟩
  split at h
  · simp only [Except.error.injEq, Prod.mk.injEq] at h
    rw [← h.2]
    exact ⟨rfl, rfl, rfl⟩
  split at h
  · simp only [Except.error.injEq, Prod.mk.injEq] at h
    rw [← h.2]
    exact ⟨rfl, rfl, rfl⟩
  case _ txn0 hcarve =>
    split at h
    case _ m hins => cases h
    case _ e0 hins =>
      simp only [Except.error.injEq, Prod.mk.injEq] at h
      rw [← h.2]
      exact ⟨rfl, rfl, rfl⟩

theorem stripe_webhook_orders (env : LedgerEnv) (s : DBState) (ev : PaymentEvent)
    (fuel : Nat) (out : WebhookOutcome) (s' : DBState)
    (h : stripe_webhook_succeeded env s ev fuel = (out, s')) :
    s'.orders = s.orders ∨
    ∃ o, s'.orders = s.orders ++ [o] ∧
      o.object_id = ev.object_id ∧ o.payment_id = ev.payment_id ∧
      o.carving_properties = format_properties ev.carving_properties := by
  unfold stripe_webhook_succeeded at h
  dsimp only at h
  split at h
  · left; rw [← (Prod.mk.injEq _ _ _ _ |>.mp h).2]
  split at h
  · left; rw [← (Prod.mk.injEq _ _ _ _ |>.mp h).2]
  split at h
  · split at h
    · left; rw [← (Prod.mk.injEq _ _ _ _ |>.mp h).2]
    case _ cid s1 hg =>
      split at h
      case _ e s2 hmc =>
        left
        rw [← (Prod.mk.injEq _ _ _ _ |>.mp h).2]
        rw [(make_carving_error_dest _ _ _ _ _ _ _ _ _ hmc).1,
          (get_next_id_preserves _ _ _ _ _ _ hg).1]
      case _ txn s2 hmc =>
        refine Or.inr ⟨{ orderOfEvent ev with
          carving_id := some cid,
          carving_txn := some txn,
          carving_link := some "sepolia-optimism.etherscan.io/tx/...#eventlog" },
          ?_, rfl, rfl, rfl⟩
        rw [← (Prod.mk.injEq _ _ _ _ |>.mp h).2]
        show (db_to_sheets _).orders = _
        unfold db_to_sheets
        dsimp only
        rw [(make_carving_ok_dest _ _ _ _ _ _ _ _ _ hmc).1,
          (get_next_id_preserves _ _ _ _ _ _ hg).1]
  · refine Or.inr ⟨orderOfEvent ev, ?_, rfl, rfl, rfl⟩
    rw [← (Prod.mk.injEq _ _ _ _ |>.mp h).2]
    rfl

theorem filter_key_eq_of_nodup_map {α β : Type} [BEq β] [LawfulBEq β]
    (f : α → β) (l : List α) (d : α) (hn : (l.map f).Nodup) (hd : d ∈ l) :
    l.filter (fun e => f e == f d) = [d] := by
  induction l with
  | nil => cases hd
  | cons a rest ih =>
      rw [List.map_cons, List.nodup_cons] at hn
      obtain ⟨hna, hnr⟩ := hn
      rcases List.mem_cons.mp hd with he | hd'
      · subst he
        rw [List.filter_cons_of_pos (by simp)]
        have hrest : rest.filter (fun e => f e == f d) = [] := by
          rw [List.filter_eq_nil_iff]
          intro e he hbe
          exact hna (beq_iff_eq.mp hbe ▸ List.mem_map_of_mem f he)
        rw [hrest]
      · have hne : (f a == f d) = false := by
          apply beq_eq_false_iff_ne.mpr
          intro hEq
          exact hna (hEq ▸ List.mem_map_of_mem f hd')
        rw [List.filter_cons_of_neg (by simp [hne])]
        exact ih hnr hd'

theorem get_next_none_of_all_used (env : LedgerEnv) (s : DBState) (email : String)
    (hall : ∀ j, id_is_used env s.mirror
      (env.genCarvingId (env.genUserId email) j) = true) :
    ∀ fuel, get_next_id_for_email env s email fuel = none := by
  intro fuel
  unfold get_next_id_for_email
  dsimp only
  rw [findFreeIndex_none_of_all_used env s.mirror (env.genUserId email) hall fuel]

/-! The claims. -/

/-- C3 counterexample: with an empty mirror and ledger, the allocator
returns the candidate id at index 0 (the first unoccupied index at the
starting cursor 0), but the persisted cursor is 0 — not 0 + 1 as the claim
states. -/
theorem get_next_id_cursor_cex :
    get_next_id_for_email envW stEmpty "a" 5 =
      some (0 :: List.replicate 31 0,
        { orders := [], mirror := [], nextIndex := [([7], 0)], carves := [] }) ∧
    lookupIdx [([7], (0 : Nat))] (envW.genUserId "a") = some 0 ∧
    (0 : Nat) ≠ 0 + 1 := by
  refine ⟨by decide, by decide, by decide⟩

/-- C3 amended: after `get_next_id_for_email` returns the id derived at
index `i` — the first unoccupied index at or after the starting cursor —
the per-user cursor `next_index[user_id]` is persisted as `i` itself, not
`i + 1`. -/
theorem get_next_id_cursor_eq_found_index (env : LedgerEnv) (s : DBState)
    (email : String) (fuel : Nat) (cid : Bytes) (s' : DBState)
    (h : get_next_id_for_email env s email fuel = some (cid, s')) :
    ∃ i, cid = env.genCarvingId (env.genUserId email) i ∧
      id_is_used env s.mirror (env.genCarvingId (env.genUserId email) i) = false ∧
      (lookupIdx s.nextIndex (env.genUserId email)).getD 0 ≤ i ∧
      (∀ j, (lookupIdx s.nextIndex (env.genUserId email)).getD 0 ≤ j → j < i →
        id_is_used env s.mirror (env.genCarvingId (env.genUserId email) j) = true) ∧
      lookupIdx s'.nextIndex (env.genUserId email) = some i := by
  obtain ⟨i, h1, h2, h3, h4, h5⟩ := get_next_id_spec env s email fuel cid s' h
  exact ⟨i, h1, h3, h4, h5, h2⟩

/-- C3 amended, witness at a concrete input. -/
theorem get_next_id_cursor_eq_found_index_witness :
    get_next_id_for_email envW stEmpty "a" 5 =
      some (0 :: List.replicate 31 0,
        { orders := [], mirror := [], nextIndex := [([7], 0)], carves := [] }) ∧
    ∃ i, (0 :: List.replicate 31 0 : Bytes) = envW.genCarvingId (envW.genUserId "a") i ∧
      id_is_used envW stEmpty.mirror (envW.genCarvingId (envW.genUserId "a") i) = false ∧
      (lookupIdx stEmpty.nextIndex (envW.genUserId "a")).getD 0 ≤ i ∧
      (∀ j, (lookupIdx stEmpty.nextIndex (envW.genUserId "a")).getD 0 ≤ j → j < i →
        id_is_used envW stEmpty.mirror (envW.genCarvingId (envW.genUserId "a") j) = true) ∧
      lookupIdx (DBState.nextIndex
        { orders := [], mirror := [], nextIndex := [([7], 0)], carves := [] })
        (envW.genUserId "a") = some i :=
  ⟨by decide,
   get_next_id_cursor_eq_found_index envW stEmpty "a" 5 (0 :: List.replicate 31 0)
     { orders := [], mirror := [], nextIndex := [([7], 0)], carves := [] }
     (by decide)⟩

/-- C4 counterexample: when every candidate id is occupied, the allocation
loop of `get_next_id_for_email` never returns for any number of probes — it
has no bounded retry count and never fails with an `AllocationExhausted`
error; it probes forever. -/
theorem alloc_no_bounded_retry_cex :
    ¬ ∃ fuel r, get_next_id_for_email envAll stEmpty "a" fuel = some r := by
  rintro ⟨fuel, r, h⟩
  rw [get_next_none_of_all_used envAll stEmpty "a" (fun j => rfl) fuel] at h
  cases h

/-- C4 amended: `get_next_id_for_email` terminates exactly on the ledgers
on which its occupancy probing can succeed: whenever some candidate index
at or after the starting cursor is unoccupied (and the fuel covers the
probe distance), the loop returns a result. The code has no bounded retry
count: on an environment with no free candidate it probes forever (see the
counterexample). -/
theorem alloc_terminates_when_free (env : LedgerEnv) (s : DBState)
    (email : String) (k fuel : Nat)
    (hfree : id_is_used env s.mirror (env.genCarvingId (env.genUserId email)
      ((lookupIdx s.nextIndex (env.genUserId email)).getD 0 + k)) = false)
    (hfuel : k < fuel) :
    ∃ r, get_next_id_for_email env s email fuel = some r := by
  have hs := findFreeIndex_reaches env s.mirror (env.genUserId email) k fuel
    ((lookupIdx s.nextIndex (env.genUserId email)).getD 0) hfree hfuel
  obtain ⟨i, hi⟩ := Option.isSome_iff_exists.mp hs
  unfold get_next_id_for_email
  dsimp only
  rw [hi]
  exact ⟨_, rfl⟩

/-- C4 amended, witness at a concrete input. -/
theorem alloc_terminates_when_free_witness :
    id_is_used envW stEmpty.mirror (envW.genCarvingId (envW.genUserId "a")
      ((lookupIdx stEmpty.nextIndex (envW.genUserId "a")).getD 0 + 0)) = false ∧
    0 < 5 ∧
    ∃ r, get_next_id_for_email envW stEmpty "a" 5 = some r :=
  ⟨by decide, by decide,
   alloc_terminates_when_free envW stEmpty "a" 0 5 (by decide) (by decide)⟩

/-- C6: a sync pass that encounters an I/O error at any point — the
event-log fetch raising (`fetch = none`) or a database error inside the
transaction before the commit (`dbFail = true`) — leaves the entire state,
in particular the mirror table, exactly as it was before the pass began;
the error is caught at carve_api.py line 128 and does not escape. -/
theorem sync_failure_leaves_mirror_intact (s : DBState)
    (fetch : Option (List StoreEvent × List DeleteEvent)) (dbFail : Bool)
    (h : fetch = none ∨ dbFail = true) :
    update_existing_carvings s fetch dbFail = s := by
  rcases h with rfl | rfl
  · rfl
  · cases fetch with
    | none => rfl
    | some p =>
        obtain ⟨ces, des⟩ := p
        simp [update_existing_carvings]

/-- C6, witness at a concrete input. -/
theorem sync_failure_leaves_mirror_intact_witness :
    ((some ([seW], [deW]) : Option (List StoreEvent × List DeleteEvent)) = none ∨
      true = true) ∧
    update_existing_carvings stW (some ([seW], [deW])) true = stW :=
  ⟨Or.inr rfl,
   sync_failure_leaves_mirror_intact stW (some ([seW], [deW])) true (Or.inr rfl)⟩

/-- C7: an id whose mirror row is a tombstone (`carving_message` null) is
reported occupied by `id_is_used`, so deleted ids are never handed out
again by the allocator; and the ledger-read fallback is consulted only when
the mirror has no row at all for the id. -/
theorem tombstone_occupied_and_fallback (env : LedgerEnv)
    (m : List MirrorRow) (cid : Bytes) :
    (m.any (fun r => r.carving_id == cid && r.carving_message.isNone) = true →
      id_is_used env m cid = true) ∧
    (mirrorHas m cid = false → id_is_used env m cid = env.read_exists cid) := by
  constructor
  · intro h
    have hm : mirrorHas m cid = true := by
      rw [mirrorHas, List.any_eq_true]
      rw [List.any_eq_true] at h
      obtain ⟨r, hr, hb⟩ := h
      exact ⟨r, hr, (Bool.and_eq_true _ _ |>.mp hb).1⟩
    rw [id_is_used, if_pos hm]
  · intro h
    simp [id_is_used, h]

/-- C7, witness at a concrete input: a state holding only a tombstone row,
with a ledger on which the id does not exist. -/
theorem tombstone_occupied_and_fallback_witness :
    ([tombW].any (fun r => r.carving_id == [1] && r.carving_message.isNone) = true ∧
      id_is_used envW [tombW] [1] = true) ∧
    (mirrorHas [] [1] = false ∧
      id_is_used envW [] [1] = envW.read_exists [1]) :=
  ⟨⟨by decide, (tombstone_occupied_and_fallback envW [tombW] [1]).1 (by decide)⟩,
   ⟨by decide, (tombstone_occupied_and_fallback envW [] [1]).2 (by decide)⟩⟩

/-- C9: `make_carving` called with an empty message or a carving id whose
length is not 32 bytes raises `ValueError` before any ledger write or any
mirror-table mutation: the error state is exactly the input state (no carve
call traced, mirror untouched). -/
theorem make_carving_validation_no_side_effect (env : LedgerEnv) (s : DBState)
    (cid : Bytes) (cto cfrom cmsg : String) (props : Bytes)
    (h : cmsg = "" ∨ cid.length ≠ 32) :
    ∃ e, make_carving env s cid cto cfrom cmsg props = Except.error (e, s) := by
  by_cases hm : cmsg = ""
  · exact ⟨"Carving message cannot be empty.", by rw [make_carving, if_pos hm]⟩
  · have hlen : cid.length ≠ 32 := h.resolve_left hm
    exact ⟨"Carving ID must be 32 bytes long.",
      by rw [make_carving, if_neg hm, if_pos hlen]⟩

/-- C9, witness at a concrete input: an empty message and a 1-byte id. -/
theorem make_carving_validation_no_side_effect_witness :
    (("" : String) = "" ∨ ([1] : Bytes).length ≠ 32) ∧
    ∃ e, make_carving envW stW [1] "t" "f" "" [5] = Except.error (e, stW) :=
  ⟨Or.inl rfl,
   make_carving_validation_no_side_effect envW stW [1] "t" "f" "" [5] (Or.inl rfl)⟩

/-- C1: a `payment_intent.succeeded` event whose `object_id` or
`payment_id` matches an already-stored Order row makes the webhook handler
perform no side effect at all: the returned state is exactly the input
state — no new Order row, no allocation-cursor change, no mirror change and
zero ledger writes — so processing the same event twice leaves exactly the
one Order row the first processing stored. -/
theorem stripe_webhook_dedup_noop (env : LedgerEnv) (s : DBState)
    (ev : PaymentEvent) (fuel : Nat)
    (h : s.orders.any (fun o => o.object_id == ev.object_id) = true ∨
         s.orders.any (fun o => o.payment_id == ev.payment_id) = true) :
    stripe_webhook_succeeded env s ev fuel = (WebhookOutcome.alreadyProcessed, s) := by
  unfold stripe_webhook_succeeded
  rcases h with h | h
  · rw [if_pos h]
  · by_cases h1 : s.orders.any (fun o => o.object_id == ev.object_id) = true
    · rw [if_pos h1]
    · rw [if_neg h1, if_pos h]

/-- C1, witness: a redelivered event whose `object_id` matches the stored
order `orderW`. -/
theorem stripe_webhook_dedup_noop_witness :
    (stW.orders.any (fun o => o.object_id == evW.object_id) = true ∨
      stW.orders.any (fun o => o.payment_id == evW.payment_id) = true) ∧
    stripe_webhook_succeeded envW stW evW 3 = (WebhookOutcome.alreadyProcessed, stW) :=
  ⟨Or.inl (by decide), stripe_webhook_dedup_noop envW stW evW 3 (Or.inl (by decide))⟩

/-- C2 counterexample: a confirmed payment with non-empty email and message
whose ledger write errors. The exception escapes the handler (outcome
`errorOut`), and the orders table of the resulting state is empty: the
Order row is NOT persisted, contradicting the claim that the payment is
recorded rather than lost. -/
theorem stripe_webhook_ledger_error_lost_cex :
    stripe_webhook_succeeded envErr stEmpty evFresh 3 =
      (WebhookOutcome.errorOut "network failure", stAfterAlloc) ∧
    stAfterAlloc.orders = [] := by
  exact ⟨by decide, rfl⟩

/-- C2 amended: when the ledger write call (`make_carving`) errors on a
confirmed payment with non-empty email and message, the exception
propagates out of the webhook handler and no Order row is persisted — the
orders table and the mirror are left unchanged; the Order is lost, not
persisted without ledger fields. -/
theorem stripe_webhook_ledger_error_no_persist (env : LedgerEnv) (s : DBState)
    (ev : PaymentEvent) (fuel : Nat) (cid : Bytes) (s1 : DBState) (e : String)
    (s2 : DBState)
    (h1 : s.orders.any (fun o => o.object_id == ev.object_id) = false)
    (h2 : s.orders.any (fun o => o.payment_id == ev.payment_id) = false)
    (h3 : ev.provided_email ≠ "")
    (h4 : ev.carving_message ≠ "")
    (h5 : get_next_id_for_email env s ev.provided_email fuel = some (cid, s1))
    (h6 : make_carving env s1 cid ev.carving_to ev.carving_from ev.carving_message
      (format_properties ev.carving_properties) = .error (e, s2)) :
    stripe_webhook_succeeded env s ev fuel = (WebhookOutcome.errorOut e, s2) ∧
    s2.orders = s.orders ∧ s2.mirror = s.mirror := by
  have hp := get_next_id_preserves env s ev.provided_email fuel cid s1 h5
  have hq := make_carving_error_dest env s1 cid ev.carving_to ev.carving_from
    ev.carving_message (format_properties ev.carving_properties) e s2 h6
  refine ⟨?_, by rw [hq.1, hp.1], by rw [hq.2.1, hp.2.1]⟩
  unfold stripe_webhook_succeeded orderOfEvent
  dsimp only
  rw [h1]
  rw [if_neg Bool.false_ne_true, h2, if_neg Bool.false_ne_true,
    if_pos (And.intro h3 h4), h5]
  dsimp only
  rw [h6]

/-- C2 amended, witness at a concrete input. -/
theorem stripe_webhook_ledger_error_no_persist_witness :
    (stEmpty.orders.any (fun o => o.object_id == evFresh.object_id) = false) ∧
    (stEmpty.orders.any (fun o => o.payment_id == evFresh.payment_id) = false) ∧
    evFresh.provided_email ≠ "" ∧
    evFresh.carving_message ≠ "" ∧
    get_next_id_for_email envErr stEmpty evFresh.provided_email 3 =
      some (0 :: List.replicate 31 0, stAfterAlloc) ∧
    make_carving envErr stAfterAlloc (0 :: List.replicate 31 0) evFresh.carving_to
      evFresh.carving_from evFresh.carving_message
      (format_properties evFresh.carving_properties) =
      .error ("network failure", stAfterAlloc) ∧
    (stripe_webhook_succeeded envErr stEmpty evFresh 3 =
      (WebhookOutcome.errorOut "network failure", stAfterAlloc) ∧
    stAfterAlloc.orders = stEmpty.orders ∧ stAfterAlloc.mirror = stEmpty.mirror) :=
  ⟨rfl, rfl, by decide, by decide, by decide, rfl,
   stripe_webhook_ledger_error_no_persist envErr stEmpty evFresh 3
     (0 :: List.replicate 31 0) stAfterAlloc "network failure" stAfterAlloc
     rfl rfl (by decide) (by decide) (by decide) rfl⟩

/-- C8 counterexample: `make_carving` — the order pipeline's ledger write,
which is not the Reconciler's sync pass — inserts a row into the mirror
table (`ExistingCarving`), so the mirror is not mutated only by the
Reconciler. -/
theorem make_carving_mutates_mirror_cex :
    ∃ txn s', make_carving envW stEmpty cid32 "t" "f" "hello" [5] =
      Except.ok (txn, s') ∧ s'.mirror ≠ stEmpty.mirror := by
  refine ⟨[9], _, rfl, by decide⟩

/-- C8 amended: the mirror table is mutated by the Reconciler's sync pass
and also by `make_carving`, which appends exactly the row for the carving
it just wrote to the ledger (carve_api.py lines 88-96); within the embedded
code no other operation inserts into or modifies mirror rows. -/
theorem make_carving_mirror_effect (env : LedgerEnv) (s : DBState) (cid : Bytes)
    (cto cfrom cmsg : String) (props : Bytes) (txn : Bytes) (s' : DBState)
    (h : make_carving env s cid cto cfrom cmsg props = .ok (txn, s')) :
    s'.mirror = s.mirror ++
      [{ carving_id := cid, carving_txn := txn,
         carving_to := some (cto.take env.params.carving_from_to_limit),
         carving_from := some (cfrom.take env.params.carving_from_to_limit),
         carving_message := some (cmsg.take env.params.carving_length_limit),
         carving_properties := format_properties props }] :=
  (make_carving_ok_dest env s cid cto cfrom cmsg props txn s' h).2.2.2

/-- C8 amended, witness at a concrete input. -/
theorem make_carving_mirror_effect_witness :
    (∃ s', make_carving envW stEmpty cid32 "t" "f" "hello" [5] =
      Except.ok ([9], s') ∧
      s'.mirror = stEmpty.mirror ++
        [{ carving_id := cid32, carving_txn := [9],
           carving_to := some ("t".take envW.params.carving_from_to_limit),
           carving_from := some ("f".take envW.params.carving_from_to_limit),
           carving_message := some ("hello".take envW.params.carving_length_limit),
           carving_properties := format_properties [5] }]) :=
  ⟨_, rfl, make_carving_mirror_effect envW stEmpty cid32 "t" "f" "hello" [5] [9] _ rfl⟩

/-- C5: for a well-formed event log (no two create events and no two delete
events share an id, and transaction hashes are pairwise distinct), the
mirror after a successful sync pass equals the replay of the full log: one
full-content row per created id not in the deleted set, and exactly one
tombstone row per deleted id; in particular, when the log contains
create(X) and delete(X), the mirror holds exactly one row for X, the
tombstone, whose message is null. -/
theorem sync_replays_event_log (s : DBState) (ces : List StoreEvent)
    (des : List DeleteEvent)
    (h1 : (ces.map (fun e => e.carvingId)).Nodup)
    (h2 : (des.map (fun e => e.carvingId)).Nodup)
    (h3 : (ces.map (fun e => e.transactionHash) ++
           des.map (fun e => e.transactionHash)).Nodup) :
    (update_existing_carvings s (some (ces, des)) false).mirror =
      (ces.filter (fun e =>
        !((des.map (fun e => e.carvingId)).contains e.carvingId))).map liveRow ++
      des.map tombstoneRow ∧
    ∀ d ∈ des,
      ((update_existing_carvings s (some (ces, des)) false).mirror.filter
        (fun r => r.carving_id == d.carvingId)) = [tombstoneRow d] ∧
      (tombstoneRow d).carving_message = none := by
  have hlive_ids : ((ces.filter (fun e =>
      !((des.map (fun e => e.carvingId)).contains e.carvingId))).map
        (fun e => e.carvingId)).Nodup :=
    List.Nodup.sublist (List.Sublist.map _ (List.filter_sublist ces)) h1
  have hdisj : ((ces.filter (fun e =>
      !((des.map (fun e => e.carvingId)).contains e.carvingId))).map
        (fun e => e.carvingId)).Disjoint (des.map (fun e => e.carvingId)) := by
    intro a ha hb
    obtain ⟨e, he, hea⟩ := List.mem_map.mp ha
    obtain ⟨he', hp⟩ := List.mem_filter.mp he
    rw [Bool.not_eq_eq_eq_not, Bool.not_true] at hp
    rw [← hea] at hb
    have hc : (des.map (fun e => e.carvingId)).contains e.carvingId = true :=
      List.elem_iff.mpr hb
    rw [hc] at hp
    cases hp
  have hids : (((ces.filter (fun e =>
      !((des.map (fun e => e.carvingId)).contains e.carvingId))).map liveRow ++
        des.map tombstoneRow).map (fun r => r.carving_id)).Nodup := by
    rw [List.map_append, List.map_map, List.map_map]
    exact List.Nodup.append hlive_ids h2 hdisj
  have htxns : (((ces.filter (fun e =>
      !((des.map (fun e => e.carvingId)).contains e.carvingId))).map liveRow ++
        des.map tombstoneRow).map (fun r => r.carving_txn)).Nodup := by
    rw [List.map_append, List.map_map, List.map_map]
    exact List.Nodup.sublist
      (List.Sublist.append (List.Sublist.map _ (List.filter_sublist ces))
        (List.Sublist.refl _)) h3
  have hins : insertRows []
      ((ces.filter (fun e =>
        !((des.map (fun e => e.carvingId)).contains e.carvingId))).map liveRow ++
       des.map tombstoneRow) =
      Except.ok
        ((ces.filter (fun e =>
          !((des.map (fun e => e.carvingId)).contains e.carvingId))).map liveRow ++
         des.map tombstoneRow) := by
    unfold insertRows
    rw [List.nil_append, if_pos (And.intro hids htxns)]
  have hmir : (update_existing_carvings s (some (ces, des)) false).mirror =
      (ces.filter (fun e =>
        !((des.map (fun e => e.carvingId)).contains e.carvingId))).map liveRow ++
      des.map tombstoneRow := by
    unfold update_existing_carvings
    dsimp only
    rw [hins]
    rfl
  refine ⟨hmir, ?_⟩
  intro d hd
  refine ⟨?_, rfl⟩
  rw [hmir, List.filter_append]
  have hlivepart : ((ces.filter (fun e =>
      !((des.map (fun e => e.carvingId)).contains e.carvingId))).map liveRow).filter
        (fun r => r.carving_id == d.carvingId) = [] := by
    rw [List.filter_eq_nil_iff]
    intro r hr hq
    obtain ⟨e, he, her⟩ := List.mem_map.mp hr
    obtain ⟨he', hp⟩ := List.mem_filter.mp he
    rw [Bool.not_eq_eq_eq_not, Bool.not_true] at hp
    rw [← her] at hq
    have heq : e.carvingId = d.carvingId := beq_iff_eq.mp hq
    have hmem : e.carvingId ∈ des.map (fun e => e.carvingId) := by
      rw [heq]
      exact List.mem_map_of_mem (fun e => e.carvingId) hd
    have hc : (des.map (fun e => e.carvingId)).contains e.carvingId = true :=
      List.elem_iff.mpr hmem
    rw [hc] at hp
    cases hp
  have htombpart : ((des.map tombstoneRow).filter
      (fun r => r.carving_id == d.carvingId)) = [tombstoneRow d] := by
    rw [List.filter_map]
    have hcomp : ((fun r : MirrorRow => r.carving_id == d.carvingId) ∘ tombstoneRow) =
        (fun e : DeleteEvent =>
          (fun e : DeleteEvent => e.carvingId) e == (fun e : DeleteEvent => e.carvingId) d) :=
      rfl
    rw [hcomp, filter_key_eq_of_nodup_map (fun e => e.carvingId) des d h2 hd]
    rfl
  rw [hlivepart, htombpart, List.nil_append]

/-- C5, witness at a concrete input: a log that creates id `[1]` and then
deletes it. -/
theorem sync_replays_event_log_witness :
    ([seW].map (fun e => e.carvingId)).Nodup ∧
    ([deW].map (fun e => e.carvingId)).Nodup ∧
    ([seW].map (fun e => e.transactionHash) ++
      [deW].map (fun e => e.transactionHash)).Nodup ∧
    ((update_existing_carvings stEmpty (some ([seW], [deW])) false).mirror =
      ([seW].filter (fun e =>
        !(([deW].map (fun e => e.carvingId)).contains e.carvingId))).map liveRow ++
      [deW].map tombstoneRow ∧
    ∀ d ∈ [deW],
      ((update_existing_carvings stEmpty (some ([seW], [deW])) false).mirror.filter
        (fun r => r.carving_id == d.carvingId)) = [tombstoneRow d] ∧
      (tombstoneRow d).carving_message = none) :=
  ⟨by decide, by decide, by decide,
   sync_replays_event_log stEmpty [seW] [deW] (by decide) (by decide) (by decide)⟩

/-- C10 counterexample: the Reconciler's bulk insert stores a live mirror
row whose `carving_properties` is the event's value verbatim — here the
1-byte value `[5]`, not a 31-byte normalized value — because the
`ExistingCarving.format_properties` validator is bypassed by the bulk
insert; so not every mirror-row properties value is normalized to exactly
31 bytes. -/
theorem sync_stores_unnormalized_props_cex :
    (update_existing_carvings stEmpty (some ([seW], [])) false).mirror =
      [liveRow seW] ∧
    (liveRow seW).carving_properties = [5] ∧
    ([5] : Bytes).length ≠ 31 := by
  exact ⟨by decide, rfl, by decide⟩

/-- C10 amended: `format_properties` left-pads with zero bytes and keeps
the last 31 bytes, always yielding exactly 31 bytes, and it is applied to
every Order row the webhook creates, to every properties value
`make_carving` sends in a ledger write and stores in its mirror row, and
(as the all-zero constant) to every Reconciler tombstone; but the live
mirror rows written by the Reconciler's bulk insert carry the event's
properties verbatim, unnormalized, because the bulk insert bypasses the
`ExistingCarving.format_properties` validator. -/
theorem properties_normalization :
    (∀ v : Bytes, format_properties v =
      List.replicate (31 - v.length) 0 ++ v.drop (v.length - 31)) ∧
    (∀ v : Bytes, (format_properties v).length = 31) ∧
    (∀ env s ev fuel out s', stripe_webhook_succeeded env s ev fuel = (out, s') →
      ∀ o ∈ s'.orders, o ∈ s.orders ∨
        o.carving_properties = format_properties ev.carving_properties) ∧
    (∀ env s cid cto cfrom cmsg props txn s',
      make_carving env s cid cto cfrom cmsg props = Except.ok (txn, s') →
      s'.carves = s.carves ++
        [{ id := cid, sent_to := cto.take env.params.carving_from_to_limit,
           sent_from := cfrom.take env.params.carving_from_to_limit,
           msg := cmsg.take env.params.carving_length_limit,
           props := format_properties props, txn := txn }] ∧
      s'.mirror = s.mirror ++
        [{ carving_id := cid, carving_txn := txn,
           carving_to := some (cto.take env.params.carving_from_to_limit),
           carving_from := some (cfrom.take env.params.carving_from_to_limit),
           carving_message := some (cmsg.take env.params.carving_length_limit),
           carving_properties := format_properties props }]) ∧
    (∀ e : DeleteEvent, (tombstoneRow e).carving_properties = List.replicate 31 0) ∧
    (∀ e : StoreEvent, (liveRow e).carving_properties = e.properties) := by
  refine ⟨format_properties_eq, format_properties_length, ?_, ?_, fun e => rfl,
    fun e => rfl⟩
  · intro env s ev fuel out s' h o ho
    rcases stripe_webhook_orders env s ev fuel out s' h with heq | ⟨onew, heq, _, _, hprops⟩
    · exact Or.inl (heq ▸ ho)
    · rw [heq] at ho
      rcases List.mem_append.mp ho with ho' | ho'
      · exact Or.inl ho'
      · exact Or.inr (List.mem_singleton.mp ho' ▸ hprops)
  · intro env s cid cto cfrom cmsg props txn s' h
    obtain ⟨_, _, hc, hm⟩ := make_carving_ok_dest env s cid cto cfrom cmsg props txn s' h
    exact ⟨hc, hm⟩

/-- C10 amended, witness: the implication-bearing parts applied at concrete
inputs — a webhook run that persists an order, and a successful
`make_carving`. -/
theorem properties_normalization_witness :
    (stripe_webhook_succeeded envW stEmpty evNoMsg 3 =
      (WebhookOutcome.incomplete, stIncomplete) ∧
     ∀ o ∈ stIncomplete.orders, o ∈ stEmpty.orders ∨
       o.carving_properties = format_properties evNoMsg.carving_properties) ∧
    (∃ s', make_carving envW stEmpty cid32 "t" "f" "hello" [5] =
      Except.ok ([9], s') ∧
      s'.carves = stEmpty.carves ++
        [{ id := cid32, sent_to := "t".take envW.params.carving_from_to_limit,
           sent_from := "f".take envW.params.carving_from_to_limit,
           msg := "hello".take envW.params.carving_length_limit,
           props := format_properties [5], txn := [9] }] ∧
      s'.mirror = stEmpty.mirror ++
        [{ carving_id := cid32, carving_txn := [9],
           carving_to := some ("t".take envW.params.carving_from_to_limit),
           carving_from := some ("f".take envW.params.carving_from_to_limit),
           carving_message := some ("hello".take envW.params.carving_length_limit),
           carving_properties := format_properties [5] }]) :=
  ⟨⟨rfl, properties_normalization.2.2.1 envW stEmpty evNoMsg 3
      WebhookOutcome.incomplete stIncomplete rfl⟩,
   ⟨_, rfl, properties_normalization.2.2.2.1 envW stEmpty cid32 "t" "f" "hello"
      [5] [9] _ rfl⟩⟩

end Carve
